import Mathlib

/-!
Shallow embedding of the `flog` package (a minimal syslog-style file logger,
src/flog.go) and proofs about its priority parsing, destination routing,
filtering, line formatting and close behaviour.

Priorities are Go `int` values; every priority the package constructs is
non-negative, so they are modelled as `Nat` with explicit bit masks
`&&&`/`|||` exactly where the source masks.  Strings are handled at the
`List Char` level where the source splits and upper-cases, mirroring
`strings.ToUpper` (ASCII case table, which covers every byte the recognized
tokens are made of) and `strings.SplitN(s, ":", 2)`.  The write mutex
serializes the write path; the embedding is the sequential body that runs
under the lock, with the process id and formatted timestamp passed in as
ambient values and the sink modelled by the bytes handed to it.
-/

namespace Flog

def severityMask : Nat := 0x07
def facilityMask : Nat := 0xf8

def LOG_EMERG : Nat := 0
def LOG_ALERT : Nat := 1
def LOG_CRIT : Nat := 2
def LOG_ERR : Nat := 3
def LOG_WARNING : Nat := 4
def LOG_NOTICE : Nat := 5
def LOG_INFO : Nat := 6
def LOG_DEBUG : Nat := 7

def LOG_KERN : Nat := 0 <<< 3
def LOG_USER : Nat := 1 <<< 3
def LOG_MAIL : Nat := 2 <<< 3
def LOG_DAEMON : Nat := 3 <<< 3
def LOG_AUTH : Nat := 4 <<< 3
def LOG_SYSLOG : Nat := 5 <<< 3
def LOG_LPR : Nat := 6 <<< 3
def LOG_NEWS : Nat := 7 <<< 3
def LOG_UUCP : Nat := 8 <<< 3
def LOG_CRON : Nat := 9 <<< 3
def LOG_AUTHPRIV : Nat := 10 <<< 3
def LOG_FTP : Nat := 11 <<< 3
def LOG_LOCAL0 : Nat := 16 <<< 3
def LOG_LOCAL1 : Nat := 17 <<< 3
def LOG_LOCAL2 : Nat := 18 <<< 3
def LOG_LOCAL3 : Nat := 19 <<< 3
def LOG_LOCAL4 : Nat := 20 <<< 3
def LOG_LOCAL5 : Nat := 21 <<< 3
def LOG_LOCAL6 : Nat := 22 <<< 3
def LOG_LOCAL7 : Nat := 23 <<< 3

/-- ASCII upper-casing of one character, the case table `strings.ToUpper`
applies to the bytes the recognized tokens are made of
(a character in `a`..`z`, code 97..122, is mapped 32 down; everything else
is unchanged). -/
def goToUpperChar (c : Char) : Char :=
  if 97 ≤ c.toNat ∧ c.toNat ≤ 122 then Char.ofNat (c.toNat - 32) else c

/-- Upper-casing of a whole string, `strings.ToUpper` restricted to the
ASCII case table. -/
def goToUpper (s : String) : String :=
  String.mk (s.data.map goToUpperChar)

/-- Embeds `strings.SplitN(s, ":", 2)`: the part before the first colon,
and, when a colon exists, the remainder after it. -/
def splitFirstColon : List Char → List Char × Option (List Char)
  | [] => ([], none)
  | c :: cs =>
    if c = ':' then ([], some cs)
    else
      let r := splitFirstColon cs
      (c :: r.1, r.2)

/-- The facility `switch` of `log_level` (src/flog.go:240-263): `some code`
for a recognized token, `none` for the `default: return 0` branch.  The
empty token falls through to `LOCAL0`. -/
def facilityCode : String → Option Nat
  | "KERN" => some LOG_KERN
  | "USER" => some LOG_USER
  | "MAIL" => some LOG_MAIL
  | "DAEMON" => some LOG_DAEMON
  | "AUTH" => some LOG_AUTH
  | "SYSLOG" => some LOG_SYSLOG
  | "LPR" => some LOG_LPR
  | "NEWS" => some LOG_NEWS
  | "UUCP" => some LOG_UUCP
  | "CRON" => some LOG_CRON
  | "AUTHPRIV" => some LOG_AUTHPRIV
  | "FTP" => some LOG_FTP
  | "" => some LOG_LOCAL0
  | "LOCAL0" => some LOG_LOCAL0
  | "LOCAL1" => some LOG_LOCAL1
  | "LOCAL2" => some LOG_LOCAL2
  | "LOCAL3" => some LOG_LOCAL3
  | "LOCAL4" => some LOG_LOCAL4
  | "LOCAL5" => some LOG_LOCAL5
  | "LOCAL6" => some LOG_LOCAL6
  | "LOCAL7" => some LOG_LOCAL7
  | _ => none

/-- The severity `switch` of `log_level` (src/flog.go:265-276); the empty
token falls through to `INFO`. -/
def severityCode : String → Option Nat
  | "EMERG" => some LOG_EMERG
  | "ALERT" => some LOG_ALERT
  | "CRIT" => some LOG_CRIT
  | "ERR" => some LOG_ERR
  | "WARNING" => some LOG_WARNING
  | "NOTICE" => some LOG_NOTICE
  | "" => some LOG_INFO
  | "INFO" => some LOG_INFO
  | "DEBUG" => some LOG_DEBUG
  | _ => none

/-- Combines the two switches of `log_level`: the Go code returns 0 from
the `default` branch of either switch, otherwise ORs the two codes
together. -/
def combineTokens (fac sev : List Char) : Nat :=
  match facilityCode (String.mk fac), severityCode (String.mk sev) with
  | some f, some s => f ||| s
  | _, _ => 0

/-- Embeds `log_level` (src/flog.go:230-279): upper-case, `SplitN ":" 2`;
when no colon is present the source appends an empty string and swaps the
two slots, so the whole input becomes the severity token and the facility
token is empty. -/
def log_level (level : String) : Nat :=
  let up := level.data.map goToUpperChar
  match splitFirstColon up with
  | (fac, some sev) => combineTokens fac sev
  | (whole, none) => combineTokens [] whole

/-- The mutable state of one logger (struct `Flog`, src/flog.go:72-79); the
sink `w` and the mutex are external capabilities, modelled at the call
sites of `write` below. -/
structure FlogState where
  priority : Nat
  filter : Nat
  tag : String
  noclose : Bool
deriving DecidableEq, Repr

/-- RE2 word character, the `\w` class of the pattern in `New`. -/
def isWordChar (c : Char) : Bool :=
  (97 ≤ c.toNat && c.toNat ≤ 122) || (65 ≤ c.toNat && c.toNat ≤ 90) ||
    (48 ≤ c.toNat && c.toNat ≤ 57) || c = '_'

/-- Embeds `regexp.MatchString` with the pattern of src/flog.go:100.  That
pattern is written with a backslash before the plus sign, so the plus is a
literal, not a quantifier: anchored at the start, the pattern matches one
word character followed by a literal plus character. -/
def matchWordThenPlus (s : String) : Bool :=
  match s.data with
  | c1 :: c2 :: _ => isWordChar c1 && c2 = '+'
  | _ => false

/-- The outcome of `New` (src/flog.go:81-111).  The dial branches delegate
to `log/syslog`, outside this repository, so they record the arguments
passed on; the URL branch records the raw string handed to `url.Parse`. -/
inductive NewResult where
  | errRes (msg : String)
  | stderrRes (l : FlogState)
  | dialRes (network raddr : String) (p : Nat) (tag : String)
  | dialUrlRes (raw : String) (p : Nat) (tag : String)
  | fileRes (path : String) (l : FlogState)
deriving DecidableEq, Repr

/-- Embeds `New`: reject a zero parse result, then route on the filename.
The stderr branch sets `noclose`; the file branch (`File`,
src/flog.go:117-129) leaves it at the Go zero value `false`. -/
def New (filename priority tag : String) : NewResult :=
  let p := log_level priority
  if p = 0 then .errRes "Priority Error"
  else if filename = "" ∨ filename = "<stderr>" then
    .stderrRes { priority := p, filter := p &&& severityMask, tag := tag,
                 noclose := true }
  else if filename = "<syslog>" then
    .dialRes "" "" p tag
  else if matchWordThenPlus filename then
    .dialUrlRes filename p tag
  else
    .fileRes filename { priority := p, filter := p &&& severityMask,
                        tag := tag, noclose := false }

/-- Result of one logging call: the bytes handed to the sink (if any), the
returned count and the returned error (`none` is Go `nil`). -/
structure WriteResult where
  output : Option String
  n : Nat
  err : Option String
deriving DecidableEq, Repr

/-- Embeds `strings.HasSuffix(msg, "\n")`: the suffix is the single ASCII
byte `\n`, so a string ends with it exactly when its last character is a
newline. -/
def hasNewlineSuffix (s : String) : Bool :=
  match s.data.getLast? with
  | some c => c = '\n'
  | none => false

/-- Embeds `Flog.write` (src/flog.go:214-228).  `pid` and the formatted
timestamp `t1` are ambient process state; `sinkOk` says whether the
`Fprintf` into the sink succeeds.  The whole formatted line is handed to
the sink in one call; on success the returned count is the length in bytes
of the message body alone. -/
def write (w : FlogState) (pid : Nat) (t1 : String) (sinkOk : Bool)
    (p : Nat) (msg : String) : WriteResult :=
  let nl := if hasNewlineSuffix msg then "" else "\n"
  let line := "<" ++ toString p ++ ">" ++ t1 ++ " " ++ w.tag ++ "[" ++
    toString pid ++ "]: " ++ msg ++ nl
  if sinkOk then
    { output := some line, n := msg.utf8ByteSize, err := none }
  else
    { output := some line, n := 0, err := some "io error" }

/-- Embeds `Flog.writeAndRetry` (src/flog.go:200-212): filter, recombine
the priority from the logger facility bits and the requested severity
bits, lock (implicit in this sequential model) and write.  A filtered call
returns before touching the sink or the lock. -/
def writeAndRetry (w : FlogState) (pid : Nat) (t1 : String) (sinkOk : Bool)
    (p : Nat) (s : String) : WriteResult :=
  let tp := p &&& severityMask
  if w.filter < tp then
    { output := none, n := 0, err := none }
  else
    let pr := (w.priority &&& facilityMask) ||| tp
    write w pid t1 sinkOk pr s

/-- Embeds `Flog.Write` (src/flog.go:145-147): the generic entry point
writes with the logger's own configured priority. -/
def WriteB (w : FlogState) (pid : Nat) (t1 : String) (sinkOk : Bool)
    (b : String) : WriteResult :=
  writeAndRetry w pid t1 sinkOk w.priority b

/-- Embeds `Flog.Emerg` (src/flog.go:160-163); like every severity method
it calls `writeAndRetry` with its own severity constant and returns only
the error component. -/
def Emerg (w : FlogState) (pid : Nat) (t1 : String) (sinkOk : Bool)
    (m : String) : Option String :=
  (writeAndRetry w pid t1 sinkOk LOG_EMERG m).err

/-- Embeds `Flog.Alert` (src/flog.go:165-168). -/
def Alert (w : FlogState) (pid : Nat) (t1 : String) (sinkOk : Bool)
    (m : String) : Option String :=
  (writeAndRetry w pid t1 sinkOk LOG_ALERT m).err

/-- Embeds `Flog.Crit` (src/flog.go:170-173). -/
def Crit (w : FlogState) (pid : Nat) (t1 : String) (sinkOk : Bool)
    (m : String) : Option String :=
  (writeAndRetry w pid t1 sinkOk LOG_CRIT m).err

/-- Embeds `Flog.Err` (src/flog.go:175-178). -/
def Err (w : FlogState) (pid : Nat) (t1 : String) (sinkOk : Bool)
    (m : String) : Option String :=
  (writeAndRetry w pid t1 sinkOk LOG_ERR m).err

/-- Embeds `Flog.Warning` (src/flog.go:180-183). -/
def Warning (w : FlogState) (pid : Nat) (t1 : String) (sinkOk : Bool)
    (m : String) : Option String :=
  (writeAndRetry w pid t1 sinkOk LOG_WARNING m).err

/-- Embeds `Flog.Notice` (src/flog.go:185-188). -/
def Notice (w : FlogState) (pid : Nat) (t1 : String) (sinkOk : Bool)
    (m : String) : Option String :=
  (writeAndRetry w pid t1 sinkOk LOG_NOTICE m).err

/-- Embeds `Flog.Info` (src/flog.go:190-193). -/
def Info (w : FlogState) (pid : Nat) (t1 : String) (sinkOk : Bool)
    (m : String) : Option String :=
  (writeAndRetry w pid t1 sinkOk LOG_INFO m).err

/-- Embeds `Flog.Debug` (src/flog.go:195-198). -/
def Debug (w : FlogState) (pid : Nat) (t1 : String) (sinkOk : Bool)
    (m : String) : Option String :=
  (writeAndRetry w pid t1 sinkOk LOG_DEBUG m).err

/-- One step of `Flog.Close` (src/flog.go:149-158) as a fuelled evaluator:
the source returns `nil` when `noclose` is set, and otherwise locks the
mutex and calls `w.Close()` again — itself, not the sink; no call to the
sink close appears anywhere in the body.  `closeRun w f` is `some e` when
the call returns error `e` within `f` recursive calls, and `none` when it
is still running after `f` calls (in Go the second iteration in fact
deadlocks on the already-held mutex, so the call never returns either
way). -/
def closeRun (w : FlogState) : Nat → Option (Option String)
  | 0 => none
  | fuel + 1 => if w.noclose then some none else closeRun w fuel

/-- Modelled from the spec: the timestamp-cache refresher and `SetTick` are
not among the source files (only the test calls `SetTick`).  Spec sections
4.4 and 9 and the known-bug comment in the test file record the observed
behaviour: each `SetTick` with a positive interval starts a new
`time.Ticker` goroutine, and because the ticker channel is never closed a
previously started refresher goroutine never stops.  The lifecycle is
modelled as the cache flag plus the count of refresher tasks still
running. -/
structure TickState where
  cacheEnabled : Bool
  runningRefreshers : Nat
deriving DecidableEq, Repr

/-- Modelled from the spec: the state before any `SetTick` call — cache
disabled, no background refresher. -/
def initTick : TickState := { cacheEnabled := false, runningRefreshers := 0 }

/-- Modelled from the spec: `SetTick(d)` with a positive interval starts
one more refresher goroutine (the previously running ones cannot be
stopped, per the known-bug comment in the test file); a non-positive
interval disables the cache but likewise stops no goroutine. -/
def SetTick (st : TickState) (d : Int) : TickState :=
  if 0 < d then
    { cacheEnabled := true, runningRefreshers := st.runningRefreshers + 1 }
  else
    { cacheEnabled := false, runningRefreshers := st.runningRefreshers }

/-! Helper lemmas about the ASCII case map, the colon split and the token
switches. -/

theorem upperChar_range (c : Char) (h1 : 97 ≤ c.toNat) (h2 : c.toNat ≤ 122) :
    65 ≤ (goToUpperChar c).toNat ∧ (goToUpperChar c).toNat ≤ 90 := by
  unfold goToUpperChar
  rw [if_pos ⟨h1, h2⟩]
  interval_cases h : c.toNat <;> simp_all

theorem goToUpperChar_of_not_lower (c : Char)
    (h : ¬(97 ≤ c.toNat ∧ c.toNat ≤ 122)) : goToUpperChar c = c := by
  rw [goToUpperChar, if_neg h]

theorem goToUpperChar_idem (c : Char) :
    goToUpperChar (goToUpperChar c) = goToUpperChar c := by
  by_cases h : 97 ≤ c.toNat ∧ c.toNat ≤ 122
  · have hr := upperChar_range c h.1 h.2
    exact goToUpperChar_of_not_lower _ (by omega)
  · have hc := goToUpperChar_of_not_lower c h
    rw [hc]
    exact hc

theorem goToUpperChar_ne_colon (c : Char) (h : c ≠ ':') :
    goToUpperChar c ≠ ':' := by
  by_cases hc : 97 ≤ c.toNat ∧ c.toNat ≤ 122
  · have hr := upperChar_range c hc.1 hc.2
    intro he
    have h58 : (goToUpperChar c).toNat = 58 := by rw [he]; decide
    omega
  · rw [goToUpperChar_of_not_lower c hc]
    exact h

theorem map_upper_idem (l : List Char) :
    (l.map goToUpperChar).map goToUpperChar = l.map goToUpperChar := by
  induction l with
  | nil => rfl
  | cons c cs ih => simp [goToUpperChar_idem, ih]

theorem splitFirstColon_no_colon (l : List Char) (h : ':' ∉ l) :
    splitFirstColon l = (l, none) := by
  induction l with
  | nil => rfl
  | cons c cs ih =>
    simp only [List.mem_cons, not_or] at h
    simp [splitFirstColon, Ne.symm h.1, ih h.2]

theorem splitFirstColon_append (l r : List Char) (h : ':' ∉ l) :
    splitFirstColon (l ++ ':' :: r) = (l, some r) := by
  induction l with
  | nil => simp [splitFirstColon]
  | cons c cs ih =>
    simp only [List.mem_cons, not_or] at h
    simp [splitFirstColon, Ne.symm h.1, ih h.2]

theorem not_colon_mem_map_upper (l : List Char) (h : ':' ∉ l) :
    ':' ∉ l.map goToUpperChar := by
  intro hm
  obtain ⟨c, hc, he⟩ := List.mem_map.mp hm
  exact goToUpperChar_ne_colon c (fun e => h (e ▸ hc)) he

theorem log_level_upper (s : String) : log_level (goToUpper s) = log_level s := by
  simp only [log_level, goToUpper, map_upper_idem]

theorem data_append3 (f v : String) :
    (f ++ ":" ++ v).data = f.data ++ ':' :: v.data := by
  simp [String.data_append]

theorem log_level_append_colon (f v : String) (h : ':' ∉ f.data) :
    log_level (f ++ ":" ++ v) =
      combineTokens (f.data.map goToUpperChar) (v.data.map goToUpperChar) := by
  simp only [log_level, data_append3, List.map_append, List.map_cons]
  rw [show goToUpperChar ':' = ':' from rfl,
    splitFirstColon_append _ _ (not_colon_mem_map_upper _ h)]

theorem log_level_no_colon (s : String) (h : ':' ∉ s.data) :
    log_level s = combineTokens [] (s.data.map goToUpperChar) := by
  simp only [log_level]
  rw [splitFirstColon_no_colon _ (not_colon_mem_map_upper _ h)]

theorem log_level_colon_cons (v : String) :
    log_level (":" ++ v) = combineTokens [] (v.data.map goToUpperChar) := by
  simp only [log_level, String.data_append, List.map_cons, List.map_append]
  rw [show goToUpperChar ':' = ':' from rfl]
  simp [splitFirstColon]

theorem log_level_colon_end (f : String) (h : ':' ∉ f.data) :
    log_level (f ++ ":") = combineTokens (f.data.map goToUpperChar) [] := by
  simp only [log_level, String.data_append, List.map_append]
  rw [show (":".data).map goToUpperChar = ':' :: ([] : List Char) from rfl,
    splitFirstColon_append _ _ (not_colon_mem_map_upper _ h)]

theorem combineTokens_empty_sev (x : List Char) :
    combineTokens x [] = combineTokens x "INFO".data := by
  unfold combineTokens
  cases h : facilityCode (String.mk x) <;> rfl

theorem combineTokens_bad_fac (x y : List Char)
    (h : facilityCode (String.mk x) = none) : combineTokens x y = 0 := by
  unfold combineTokens
  rw [h]

theorem combineTokens_bad_sev (x y : List Char)
    (h : severityCode (String.mk y) = none) : combineTokens x y = 0 := by
  unfold combineTokens
  rw [h]
  cases facilityCode (String.mk x) <;> rfl

/-! Helper lemmas about the two bit masks. -/

theorem testBit_sevenMask (i : Nat) : Nat.testBit 7 i = decide (i < 3) := by
  match i with
  | 0 => rfl
  | 1 => rfl
  | 2 => rfl
  | n + 3 =>
    have h1 : (7 : Nat) < 2 ^ (n + 3) := by
      calc (7 : Nat) < 2 ^ 3 := by norm_num
        _ ≤ 2 ^ (n + 3) := Nat.pow_le_pow_right (by norm_num) (by omega)
    have h2 : ¬(n + 3 < 3) := by omega
    rw [Nat.testBit_lt_two_pow h1]
    simp [h2]

theorem testBit_facMask (i : Nat) :
    Nat.testBit 248 i = (decide (3 ≤ i) && decide (i < 8)) := by
  match i with
  | 0 => rfl
  | 1 => rfl
  | 2 => rfl
  | 3 => rfl
  | 4 => rfl
  | 5 => rfl
  | 6 => rfl
  | 7 => rfl
  | n + 8 =>
    have h1 : (248 : Nat) < 2 ^ (n + 8) := by
      calc (248 : Nat) < 2 ^ 8 := by norm_num
        _ ≤ 2 ^ (n + 8) := Nat.pow_le_pow_right (by norm_num) (by omega)
    have h2 : ¬(n + 8 < 8) := by omega
    rw [Nat.testBit_lt_two_pow h1]
    simp [h2]

theorem combined_sev_bits (a b : Nat) :
    ((a &&& 248) ||| (b &&& 7)) &&& 7 = b &&& 7 := by
  apply Nat.eq_of_testBit_eq
  intro i
  simp only [Nat.testBit_land, Nat.testBit_lor, testBit_sevenMask, testBit_facMask]
  by_cases h : i < 3
  · have h3 : ¬(3 ≤ i) := by omega
    simp [h, h3]
  · simp [h]

theorem combined_fac_bits (a b : Nat) :
    ((a &&& 248) ||| (b &&& 7)) &&& 248 = a &&& 248 := by
  apply Nat.eq_of_testBit_eq
  intro i
  simp only [Nat.testBit_land, Nat.testBit_lor, testBit_sevenMask, testBit_facMask]
  by_cases h : i < 3
  · have h3 : ¬(3 ≤ i) := by omega
    simp [h, h3]
  · simp [h]

/-! The claims. -/

/-- Claim C1: the claim states that no valid facility:severity combination
is rejected by `New`, in particular that the string kern:emerg (whose
encoding is Kern ORed with Emerg, numerically 0) yields a usable logger.
On the source this fails: both tokens are recognized, yet their encoding
collides with the zero sentinel `log_level` uses for a parse failure, so
`New` returns the Priority Error result for this valid combination. -/
theorem C1_kern_emerg_rejected :
    facilityCode "KERN" = some LOG_KERN ∧
    severityCode "EMERG" = some LOG_EMERG ∧
    log_level "kern:emerg" = 0 ∧
    New "" "kern:emerg" "tag" = NewResult.errRes "Priority Error" := by
  refine ⟨rfl, rfl, by decide, by decide⟩

/-- Claim C2: the claim states that a destination of the form scheme://host
opens a daemon connection via Dial.  On the source this fails: the pattern
of src/flog.go:100 escapes the plus sign, so it requires a literal plus as
the second character; tcp://localhost:514 does not match and is opened as
a local file path.  The stderr and syslog destinations route as the claim
says. -/
theorem C2_url_destination_opens_file :
    matchWordThenPlus "tcp://localhost:514" = false ∧
    New "tcp://localhost:514" "info" "tag" =
      NewResult.fileRes "tcp://localhost:514"
        { priority := 134, filter := 6, tag := "tag", noclose := false } ∧
    New "" "info" "tag" =
      NewResult.stderrRes { priority := 134, filter := 6, tag := "tag", noclose := true } ∧
    New "<stderr>" "info" "tag" =
      NewResult.stderrRes { priority := 134, filter := 6, tag := "tag", noclose := true } ∧
    New "<syslog>" "info" "tag" = NewResult.dialRes "" "" 134 "tag" := by
  refine ⟨rfl, by decide, by decide, by decide, by decide⟩

/-- Claim C3: the claim states that on a logger owning its sink (`noclose`
not set) Close terminates and releases the sink by calling the sink close.
On the source this fails: the body of `Flog.Close` calls the logger's own
Close again and never reaches the sink, so for every fuel bound the
fuelled evaluation of Close is still running — the call never returns. -/
theorem C3_close_never_terminates (w : FlogState) (h : w.noclose = false) :
    ∀ fuel, closeRun w fuel = none := by
  intro fuel
  induction fuel with
  | zero => rfl
  | succ n ih => simp [closeRun, h, ih]

theorem C3_close_never_terminates_witness :
    ({ priority := 134, filter := 6, tag := "t", noclose := false } : FlogState).noclose
      = false ∧
    closeRun { priority := 134, filter := 6, tag := "t", noclose := false } 1000 = none :=
  ⟨rfl, C3_close_never_terminates _ rfl 1000⟩

/-- Claim C4: every severity method and every generic Write whose effective
severity (requested priority low three bits) is numerically greater than
the filter returns a nil error and count 0 with no bytes reaching the
sink: a silent, successful no-op. -/
theorem C4_filtered_silent_noop :
    (∀ (w : FlogState) (pid : Nat) (t1 : String) (ok : Bool) (p : Nat) (s : String),
        w.filter < p &&& severityMask →
        writeAndRetry w pid t1 ok p s = { output := none, n := 0, err := none }) ∧
    (∀ (w : FlogState) (pid : Nat) (t1 : String) (ok : Bool) (b : String),
        w.filter < w.priority &&& severityMask →
        WriteB w pid t1 ok b = { output := none, n := 0, err := none }) ∧
    (∀ (w : FlogState) (pid : Nat) (t1 : String) (ok : Bool) (m : String),
        w.filter < LOG_EMERG &&& severityMask → Emerg w pid t1 ok m = none) ∧
    (∀ (w : FlogState) (pid : Nat) (t1 : String) (ok : Bool) (m : String),
        w.filter < LOG_ALERT &&& severityMask → Alert w pid t1 ok m = none) ∧
    (∀ (w : FlogState) (pid : Nat) (t1 : String) (ok : Bool) (m : String),
        w.filter < LOG_CRIT &&& severityMask → Crit w pid t1 ok m = none) ∧
    (∀ (w : FlogState) (pid : Nat) (t1 : String) (ok : Bool) (m : String),
        w.filter < LOG_ERR &&& severityMask → Err w pid t1 ok m = none) ∧
    (∀ (w : FlogState) (pid : Nat) (t1 : String) (ok : Bool) (m : String),
        w.filter < LOG_WARNING &&& severityMask → Warning w pid t1 ok m = none) ∧
    (∀ (w : FlogState) (pid : Nat) (t1 : String) (ok : Bool) (m : String),
        w.filter < LOG_NOTICE &&& severityMask → Notice w pid t1 ok m = none) ∧
    (∀ (w : FlogState) (pid : Nat) (t1 : String) (ok : Bool) (m : String),
        w.filter < LOG_INFO &&& severityMask → Info w pid t1 ok m = none) ∧
    (∀ (w : FlogState) (pid : Nat) (t1 : String) (ok : Bool) (m : String),
        w.filter < LOG_DEBUG &&& severityMask → Debug w pid t1 ok m = none) := by
  have base : ∀ (w : FlogState) (pid : Nat) (t1 : String) (ok : Bool) (p : Nat) (s : String),
      w.filter < p &&& severityMask →
      writeAndRetry w pid t1 ok p s = { output := none, n := 0, err := none } := by
    intro w pid t1 ok p s h
    simp only [writeAndRetry]
    rw [if_pos h]
  refine ⟨base, fun w pid t1 ok b h => base _ _ _ _ _ _ h,
    ?_, ?_, ?_, ?_, ?_, ?_, ?_, ?_⟩ <;>
    (intro w pid t1 ok m h
     simp only [Emerg, Alert, Crit, Err, Warning, Notice, Info, Debug]
     rw [base _ _ _ _ _ _ h])

theorem C4_filtered_silent_noop_witness :
    (({ priority := 133, filter := 5, tag := "t", noclose := false } : FlogState).filter <
        LOG_DEBUG &&& severityMask) ∧
    Debug { priority := 133, filter := 5, tag := "t", noclose := false } 42 "ts" true "m"
      = none :=
  ⟨by decide,
   C4_filtered_silent_noop.2.2.2.2.2.2.2.2.2
     { priority := 133, filter := 5, tag := "t", noclose := false } 42 "ts" true "m"
     (by decide)⟩

/-- Claim C5: a call whose severity passes the filter, on a sink whose
write succeeds, emits exactly one line of the form
priority-in-angle-brackets, timestamp, space, tag, pid in square brackets,
colon, message — with a trailing newline appended only when the message
does not already end in one — and returns a nil error with the byte length
of the message body, not of the whole line. -/
theorem C5_unfiltered_line_format (w : FlogState) (pid : Nat) (t1 : String)
    (p : Nat) (s : String) (h : p &&& severityMask ≤ w.filter) :
    writeAndRetry w pid t1 true p s =
      { output := some ("<" ++
          toString ((w.priority &&& facilityMask) ||| (p &&& severityMask)) ++
          ">" ++ t1 ++ " " ++ w.tag ++ "[" ++ toString pid ++ "]: " ++ s ++
          (if hasNewlineSuffix s then "" else "\n")),
        n := s.utf8ByteSize,
        err := none } := by
  simp only [writeAndRetry, write]
  rw [if_neg (Nat.not_lt.mpr h), if_pos trivial]

theorem C5_unfiltered_line_format_witness :
    ((6 : Nat) &&& severityMask ≤
      ({ priority := 134, filter := 6, tag := "svc", noclose := false } : FlogState).filter) ∧
    writeAndRetry { priority := 134, filter := 6, tag := "svc", noclose := false }
        1234 "TS" true 6 "boot ok" =
      { output := some "<134>TS svc[1234]: boot ok\n", n := 7, err := none } :=
  ⟨by decide,
   (C5_unfiltered_line_format
      { priority := 134, filter := 6, tag := "svc", noclose := false }
      1234 "TS" 6 "boot ok" (by decide)).trans (by decide)⟩

/-- Claim C6: every emitted line carries the encoded priority built from
the logger's facility bits ORed with the requested severity bits: the
facility bits of the emitted priority equal the logger's and its severity
bits equal the requested severity, whatever the call site supplied. -/
theorem C6_facility_from_logger (w : FlogState) (pid : Nat) (t1 : String)
    (ok : Bool) (p : Nat) (s : String) (h : p &&& severityMask ≤ w.filter) :
    ∃ pr, writeAndRetry w pid t1 ok p s = write w pid t1 ok pr s ∧
      pr = (w.priority &&& facilityMask) ||| (p &&& severityMask) ∧
      pr &&& facilityMask = w.priority &&& facilityMask ∧
      pr &&& severityMask = p &&& severityMask := by
  refine ⟨(w.priority &&& facilityMask) ||| (p &&& severityMask), ?_, rfl, ?_, ?_⟩
  · simp only [writeAndRetry]
    rw [if_neg (Nat.not_lt.mpr h)]
  · exact combined_fac_bits w.priority p
  · exact combined_sev_bits w.priority p

theorem C6_facility_from_logger_witness :
    ((5 : Nat) &&& severityMask ≤
      ({ priority := 134, filter := 6, tag := "t", noclose := false } : FlogState).filter) ∧
    (∃ pr, writeAndRetry { priority := 134, filter := 6, tag := "t", noclose := false }
          1 "ts" true 5 "m" =
        write { priority := 134, filter := 6, tag := "t", noclose := false } 1 "ts" true pr "m" ∧
      pr = (({ priority := 134, filter := 6, tag := "t", noclose := false } : FlogState).priority &&&
          facilityMask) ||| ((5 : Nat) &&& severityMask) ∧
      pr &&& facilityMask =
        ({ priority := 134, filter := 6, tag := "t", noclose := false } : FlogState).priority &&&
          facilityMask ∧
      pr &&& severityMask = (5 : Nat) &&& severityMask) :=
  ⟨by decide,
   C6_facility_from_logger { priority := 134, filter := 6, tag := "t", noclose := false }
     1 "ts" true 5 "m" (by decide)⟩

/-- Claim C7: the claim states that SetTick synchronously stops any
previously running refresher, so two successive calls leave exactly one
background task.  On the behaviour recorded by the spec and the test file
this fails: a positive-interval SetTick always adds a refresher that can
never be stopped, so two successive calls on a fresh logger leave two
running tasks, not one. -/
theorem C7_settick_leaks_refreshers :
    (∀ (st : TickState) (d : Int), 0 < d →
        (SetTick st d).runningRefreshers = st.runningRefreshers + 1) ∧
    (SetTick (SetTick initTick 100) 100).runningRefreshers = 2 := by
  constructor
  · intro st d h
    simp [SetTick, h]
  · decide

theorem C7_settick_leaks_refreshers_witness :
    ((0 : Int) < 100) ∧
    (SetTick initTick 100).runningRefreshers = initTick.runningRefreshers + 1 :=
  ⟨by decide, C7_settick_leaks_refreshers.1 initTick 100 (by decide)⟩

/-- Claim C8: priority-string parsing is case-insensitive (upper-casing the
input does not change the result); an empty facility token parses exactly
as LOCAL0 and an empty severity token exactly as INFO, so the empty string
parses to LOCAL0 ORed with INFO; an unrecognized token on either side of
the colon yields the invalid (zero) result. -/
theorem C8_parsing_case_insensitive_defaults :
    (∀ s : String, log_level (goToUpper s) = log_level s) ∧
    (∀ v : String, log_level (":" ++ v) = log_level ("LOCAL0" ++ ":" ++ v)) ∧
    (∀ f : String, ':' ∉ f.data →
      log_level (f ++ ":") = log_level (f ++ ":" ++ "INFO")) ∧
    log_level "" = LOG_LOCAL0 ||| LOG_INFO ∧
    (∀ f v : String, ':' ∉ f.data →
      facilityCode (String.mk (f.data.map goToUpperChar)) = none →
      log_level (f ++ ":" ++ v) = 0) ∧
    (∀ f v : String, ':' ∉ f.data →
      severityCode (String.mk (v.data.map goToUpperChar)) = none →
      log_level (f ++ ":" ++ v) = 0) := by
  refine ⟨log_level_upper, ?_, ?_, by decide, ?_, ?_⟩
  · intro v
    rw [log_level_colon_cons, log_level_append_colon "LOCAL0" v (by decide)]
    rfl
  · intro f h
    rw [log_level_colon_end f h, log_level_append_colon f "INFO" h,
      combineTokens_empty_sev]
    rfl
  · intro f v h hf
    rw [log_level_append_colon f v h]
    exact combineTokens_bad_fac _ _ hf
  · intro f v h hs
    rw [log_level_append_colon f v h]
    exact combineTokens_bad_sev _ _ hs

theorem C8_parsing_witness :
    (':' ∉ ("bogus" : String).data ∧
      facilityCode (String.mk (("bogus" : String).data.map goToUpperChar)) = none ∧
      log_level ("bogus" ++ ":" ++ "info") = 0) ∧
    log_level (goToUpper "LoCaL3:NoTiCe") = log_level "LoCaL3:NoTiCe" :=
  ⟨⟨by decide, by decide,
    C8_parsing_case_insensitive_defaults.2.2.2.2.1 "bogus" "info" (by decide) (by decide)⟩,
   C8_parsing_case_insensitive_defaults.1 "LoCaL3:NoTiCe"⟩

/-- Claim C9: a priority string with no colon is treated entirely as the
severity name with the facility defaulting to LOCAL0 — equivalent to
prefixing a colon — so the string debug parses as LOCAL0 ORed with DEBUG;
a colon-less facility name such as kern is never read as a facility with a
default severity and instead yields the invalid (zero) result. -/
theorem C9_colonless_is_severity :
    (∀ s : String, ':' ∉ s.data → log_level s = log_level (":" ++ s)) ∧
    log_level "debug" = LOG_LOCAL0 ||| LOG_DEBUG ∧
    log_level "kern" = 0 := by
  refine ⟨?_, by decide, by decide⟩
  intro s h
  rw [log_level_no_colon s h, log_level_colon_cons]

theorem C9_colonless_is_severity_witness :
    ':' ∉ ("debug" : String).data ∧ log_level "debug" = log_level (":" ++ "debug") :=
  ⟨by decide, C9_colonless_is_severity.1 "debug" (by decide)⟩

/-- Claim C10: a logger constructed on standard error (destination empty or
the stderr marker) has `noclose` set, and Close on it is a no-op that
returns nil in one step — before the lock or the recursive call — at every
fuel bound, any number of times, leaving the logger state untouched. -/
theorem C10_stderr_close_noop (priority tag : String) (l : FlogState)
    (h : New "" priority tag = NewResult.stderrRes l ∨
        New "<stderr>" priority tag = NewResult.stderrRes l) :
    l.noclose = true ∧ (∀ fuel, closeRun l (fuel + 1) = some none) := by
  have hn : l.noclose = true := by
    rcases h with h | h
    · simp only [New] at h
      split at h
      · simp at h
      · rw [if_pos (Or.inl trivial)] at h
        injection h with he
        rw [← he]
    · simp only [New] at h
      split at h
      · simp at h
      · rw [if_pos (Or.inr trivial)] at h
        injection h with he
        rw [← he]
  refine ⟨hn, fun fuel => ?_⟩
  simp [closeRun, hn]

theorem C10_stderr_close_noop_witness :
    (New "" "info" "t" =
        NewResult.stderrRes { priority := 134, filter := 6, tag := "t", noclose := true } ∨
      New "<stderr>" "info" "t" =
        NewResult.stderrRes { priority := 134, filter := 6, tag := "t", noclose := true }) ∧
    (({ priority := 134, filter := 6, tag := "t", noclose := true } : FlogState).noclose = true ∧
      (∀ fuel, closeRun { priority := 134, filter := 6, tag := "t", noclose := true } (fuel + 1) =
        some none)) :=
  ⟨Or.inl (by decide),
   C10_stderr_close_noop "info" "t" _ (Or.inl (by decide))⟩

end Flog
